import Mathlib

/-!
# Verification of the EclipseLauncher orchestration core (`main.py`)

This file shallowly embeds the launcher's configuration-persistence and
launch-session layer from `main.py` and proves the specification's testable
properties about it.

Modelling conventions:
* The persisted JSON configuration document is modelled twice, matching the
  two levels at which the source manipulates it:
  - as a raw JSON object (an ordered association list `RawDict`) for
    `load_config`'s dict-merge `{**default_config, **json.load(f)}`;
  - as a typed record `Config` with the six schema fields for the in-memory
    `self.config` that the rest of the class mutates field-by-field.
* Side effects (JS calls into the webview, config saves, spawning the
  background thread, calls into `minecraft_launcher_lib`, `subprocess.Popen`)
  are reified as an `Effect` trace returned next to the new state.
* Fallible external calls (`os.remove`, `install_minecraft_version`,
  `get_minecraft_command`, `Popen`) are modelled as `Except String`-valued
  oracles supplied by an `Env`; a `.error msg` value stands for the call
  raising an exception whose `str()` is `msg`.
* Python's float expression `int((current / max) * 100)` is modelled exactly:
  `pct100` computes the IEEE-754 binary64 double nearest to `v / m`
  (round-to-nearest, ties-to-even), multiplies by 100 with a second correct
  rounding, and truncates — all in exact natural-number arithmetic.  The
  model covers the binary64 normal range, which contains every value the
  launcher's integer progress counters can produce.
-/

/-- A JSON value, as produced by `json.load` (only the shapes the launcher's
configuration uses). -/
inductive JVal where
  | str (s : String)
  | int (n : Int)
  | bool (b : Bool)
  | null
  | list (xs : List JVal)

/-- A parsed JSON object: an ordered key/value list, as a Python `dict`. -/
abbrev RawDict := List (String × JVal)

/-- Python `d[k]` / `k in d` on a dict: the value of the first entry with the
given key. -/
def dictLookup (d : RawDict) (k : String) : Option JVal :=
  match d with
  | [] => none
  | (k1, v) :: rest => if k1 = k then some v else dictLookup rest k

/-- Python `{**a, **b}`: the keys of `a` in order (with `b`'s value whenever
`b` also binds the key), followed by the entries of `b` whose keys are not
in `a`. -/
def dictMerge (a b : RawDict) : RawDict :=
  a.map (fun p => (p.1, (dictLookup b p.1).getD p.2)) ++
    b.filter (fun p => (dictLookup a p.1).isNone)

/-- The `default_config` dict literal in `load_config` (main.py lines 30-37). -/
def default_config_raw : RawDict :=
  [("last_username", .str ""),
   ("ram_allocation", .int 2),
   ("theme", .str "purple"),
   ("dark_mode", .bool true),
   ("tutorial_shown", .bool false),
   ("launch_history", .list [])]

/-- The six keys of the default configuration document. -/
def defaultKeys : List String :=
  ["last_username", "ram_allocation", "theme", "dark_mode", "tutorial_shown",
   "launch_history"]

/-- `MinecraftLauncher.load_config` (main.py lines 28-45) on the raw document.
The argument models the persisted file: `none` when `os.path.exists` is false,
`some (.error e)` when opening/parsing raises, `some (.ok d)` when `json.load`
yields the object `d`.  The merge is `{**default_config, **json.load(f)}`. -/
def load_config (file : Option (Except String RawDict)) : RawDict :=
  match file with
  | none => default_config_raw
  | some (.error _) => default_config_raw
  | some (.ok d) => dictMerge default_config_raw d

/-- One entry of `launch_history` (main.py lines 126-130). -/
structure HistoryEntry where
  version : String
  username : String
  timestamp : String
deriving Repr, DecidableEq

/-- The launcher configuration document, viewed through its schema: the six
fields that `default_config` establishes and the class reads and writes. -/
structure Config where
  last_username : String
  ram_allocation : Int
  theme : String
  dark_mode : Bool
  tutorial_shown : Bool
  launch_history : List HistoryEntry
deriving Repr, DecidableEq

/-- The typed view of `default_config` (main.py lines 30-37). -/
def default_config : Config :=
  { last_username := ""
    ram_allocation := 2
    theme := "purple"
    dark_mode := true
    tutorial_shown := false
    launch_history := [] }

/-- The `options` dict passed to `get_minecraft_command` (main.py lines 188-193). -/
structure Options where
  username : String
  uuid : String
  token : String
  jvmArguments : List String
deriving Repr, DecidableEq

/-- Mutable fields of the `MinecraftLauncher` object (main.py lines 22-26):
`window` is `True` once the webview window is attached, `max_value` and
`current_progress` start at 0, `config` holds the loaded document. -/
structure LauncherState where
  window : Bool
  max_value : Int
  current_progress : Int
  config : Config
deriving Repr, DecidableEq

/-- `MinecraftLauncher.__init__` (main.py lines 22-26): no window yet,
`max_value = 0`, `current_progress = 0`, and the given loaded config. -/
def initLauncherState (cfg : Config) : LauncherState :=
  { window := false, max_value := 0, current_progress := 0, config := cfg }

/-- The observable side effects of the launcher methods. -/
inductive Effect where
  | setStatus (s : String)
  | save (c : Config)
  | updateProgress (pct v m : Int)
  | loadHistory (h : List HistoryEntry)
  | installCall (version : String)
  | getCommandCall (version : String) (opts : Options)
  | spawn (cmd : List String)
  | startThread (version username : String) (ram : Int)
deriving Repr, DecidableEq

/-! ## Exact binary64 model of `int((current / max) * 100)` -/

/-- Fuel-driven base-2 logarithm: `log2fuel f n` is `⌊log₂ n⌋` for `n ≥ 1`
whenever `f ≥ n` (structural recursion so that the kernel can evaluate it). -/
def log2fuel : Nat → Nat → Nat
  | 0, _ => 0
  | f + 1, n => if n < 2 then 0 else log2fuel f (n / 2) + 1

/-- `⌊log₂ n⌋` for `n ≥ 1` (and `0` at `0`). -/
def natLog2 (n : Nat) : Nat := log2fuel n n

/-- `⌊log₂ (a / b)⌋` for `a, b ≥ 1`: with `s` bits, `2 ^ s > b`, so
`a * 2 ^ s / b ≥ 1` and its integer `log₂` minus `s` is the rational's. -/
def floorLog2 (a b : Nat) : Int :=
  let s := natLog2 b + 1
  (natLog2 (a * 2 ^ s / b) : Int) - (s : Int)

/-- Round the nonnegative rational `num / den` to the nearest integer,
ties to even (IEEE-754 default rounding of the significand). -/
def roundSig (num den : Nat) : Nat :=
  let q := num / den
  let r := num % den
  if 2 * r < den then q
  else if den < 2 * r then q + 1
  else if q % 2 = 0 then q else q + 1

/-- The binary64 double nearest to `a / b` (ties to even), as a significand /
exponent pair `(m, e)` with value `m * 2 ^ e` and `2 ^ 52 ≤ m ≤ 2 ^ 53` for
nonzero results.  Valid on the binary64 normal range, which covers every
ratio of the launcher's progress counters. -/
def roundDouble (a b : Nat) : Nat × Int :=
  if a = 0 ∨ b = 0 then (0, 0)
  else
    let e : Int := floorLog2 a b - 52
    let nd : Nat × Nat :=
      if e ≤ 0 then (a * 2 ^ (-e).toNat, b) else (a, b * 2 ^ e.toNat)
    (roundSig nd.1 nd.2, e)

/-- `⌊m * 2 ^ e⌋` for a nonnegative double given as `(m, e)`. -/
def dvalFloor : Nat × Int → Nat
  | (m, e) => if 0 ≤ e then m * 2 ^ e.toNat else m / 2 ^ (-e).toNat

/-- Python `int((v / m) * 100)` for `v ≥ 0`, `m > 0`: divide in binary64,
multiply the resulting double by the exact constant `100` with a second
correct rounding, truncate toward zero. -/
def pct100 (v m : Nat) : Nat :=
  let d1 := roundDouble v m
  let nd : Nat × Nat :=
    if d1.2 ≤ 0 then (d1.1 * 100, 2 ^ (-d1.2).toNat)
    else (d1.1 * 100 * 2 ^ d1.2.toNat, 1)
  dvalFloor (roundDouble nd.1 nd.2)

/-- Python `int((v / m) * 100)` on integers (`m > 0` at every call site,
guarded by `if self.max_value > 0`).  Both the two roundings and `int`'s
truncation toward zero commute with negation, so the negative case reduces
to `pct100` on the magnitude. -/
def pctDouble (v m : Int) : Int :=
  if 0 ≤ v then (pct100 v.toNat m.toNat : Int)
  else -(pct100 (-v).toNat m.toNat : Int)

/-! ## The launcher methods -/

/-- `MinecraftLauncher.set_status` (main.py lines 152-155): pushes the status
text to the UI when a window is attached, otherwise does nothing. -/
def set_status (s : String) (st : LauncherState) : List Effect :=
  if st.window then [Effect.setStatus s] else []

/-- `MinecraftLauncher.set_progress` (main.py lines 157-163): always records
the value; when `max_value > 0`, computes `int((current / max) * 100)` and,
when a window is attached, pushes `(percentage, current, max)` to the UI. -/
def set_progress (v : Int) (st : LauncherState) : LauncherState × List Effect :=
  let st1 := { st with current_progress := v }
  if 0 < st1.max_value then
    let percentage := pctDouble st1.current_progress st1.max_value
    (st1,
      if st1.window then
        [Effect.updateProgress percentage st1.current_progress st1.max_value]
      else [])
  else (st1, [])

/-- `MinecraftLauncher.set_max` (main.py lines 165-167). -/
def set_max (m : Int) (st : LauncherState) : LauncherState :=
  { st with max_value := m }

/-- The pure list operation inside `add_launch_history` (main.py lines
132-133): `insert(0, entry)` followed by the slice `[:10]`. -/
def add_history_list (e : HistoryEntry) (h : List HistoryEntry) :
    List HistoryEntry :=
  (e :: h).take 10

/-- `MinecraftLauncher.add_launch_history` (main.py lines 124-137): prepend
the entry, truncate to 10, save the config, and refresh the UI history list
when a window is attached. -/
def add_launch_history (version username timestamp : String)
    (st : LauncherState) : LauncherState × List Effect :=
  let hist := add_history_list ⟨version, username, timestamp⟩
    st.config.launch_history
  let cfg := { st.config with launch_history := hist }
  ({ st with config := cfg },
    [Effect.save cfg] ++ if st.window then [Effect.loadHistory hist] else [])

/-- `MinecraftLauncher.update_username` (main.py lines 59-62). -/
def update_username (u : String) (st : LauncherState) :
    LauncherState × List Effect :=
  let cfg := { st.config with last_username := u }
  ({ st with config := cfg }, [Effect.save cfg])

/-- `MinecraftLauncher.update_ram` (main.py lines 64-67). -/
def update_ram (r : Int) (st : LauncherState) : LauncherState × List Effect :=
  let cfg := { st.config with ram_allocation := r }
  ({ st with config := cfg }, [Effect.save cfg])

/-- `MinecraftLauncher.update_theme` (main.py lines 69-72). -/
def update_theme (t : String) (st : LauncherState) :
    LauncherState × List Effect :=
  let cfg := { st.config with theme := t }
  ({ st with config := cfg }, [Effect.save cfg])

/-- `MinecraftLauncher.mark_tutorial_complete` (main.py lines 90-93). -/
def mark_tutorial_complete (st : LauncherState) :
    LauncherState × List Effect :=
  let cfg := { st.config with tutorial_shown := true }
  ({ st with config := cfg }, [Effect.save cfg])

/-- Outcome record for `reset_launcher_data` / `delete_minecraft_instances`:
the `{"success": ..., "message": ...}` dict. -/
structure ResetResult where
  success : Bool
  message : String
deriving Repr, DecidableEq

/-- `MinecraftLauncher.reset_launcher_data` (main.py lines 95-103).
`fileExists` is `os.path.exists(config_file)`; `removeResult` is the outcome
of `os.remove` (`.error e` when it raises with message `e`).  On the success
path `self.config = self.load_config()` runs with the file already removed,
so it returns the pure defaults.  The middle component of the result is
whether the persisted file still exists afterwards. -/
def reset_launcher_data (fileExists : Bool)
    (removeResult : Except String Unit) (st : LauncherState) :
    LauncherState × Bool × ResetResult :=
  if fileExists then
    match removeResult with
    | .error e => (st, true, ⟨false, "Error: " ++ e⟩)
    | .ok _ =>
        ({ st with config := default_config }, false,
          ⟨true, "Launcher data reset successfully!"⟩)
  else
    ({ st with config := default_config }, false,
      ⟨true, "Launcher data reset successfully!"⟩)

/-- The `jvmArguments` entry of `options` (main.py line 192):
`["-Xmx{ram}G", "-Xms{max(1, ram // 2)}G"]`, with Python's floor
division `//`. -/
def jvmArguments (ram : Int) : List String :=
  ["-Xmx" ++ toString ram ++ "G",
   "-Xms" ++ toString (max 1 (Int.fdiv ram 2)) ++ "G"]

/-- One progress-callback invocation made by
`minecraft_launcher_lib.install.install_minecraft_version` through the
`callback` dict (main.py lines 174-178). -/
inductive CbEvent where
  | status (s : String)
  | progress (v : Int)
  | maxv (m : Int)
deriving Repr, DecidableEq

/-- Behaviour of the external collaborators during one
`install_and_launch` run: the callback invocations made while installing,
the outcomes of `install_minecraft_version`, `get_minecraft_command` and
`subprocess.Popen` (`.error msg` models a raised exception with `str()`
equal to `msg`), and `datetime.now().isoformat()`. -/
structure Env where
  installEvents : List CbEvent
  installResult : Except String Unit
  getCommandResult : Except String (List String)
  popenResult : Except String Unit
  now : String

/-- Dispatch the callback invocations of the install library through
`set_status` / `set_progress` / `set_max`, threading the launcher state. -/
def runCallbacks (evs : List CbEvent) (st : LauncherState) :
    LauncherState × List Effect :=
  match evs with
  | [] => (st, [])
  | ev :: rest =>
      let step : LauncherState × List Effect :=
        match ev with
        | .status s => (st, set_status s st)
        | .progress v => set_progress v st
        | .maxv m => (set_max m st, [])
      let next := runCallbacks rest step.1
      (next.1, step.2 ++ next.2)

/-- `MinecraftLauncher.install_and_launch` (main.py lines 169-209): the whole
body runs under `try`, and any exception from the external library lands in
`except Exception as e: self.set_status(f"Error: {str(e)}")`. -/
def install_and_launch (env : Env) (version username : String) (ram : Int)
    (st : LauncherState) : LauncherState × List Effect :=
  let e0 := set_status ("Installing Minecraft " ++ version ++ "...") st
  let cb := runCallbacks env.installEvents st
  let st1 := cb.1
  match env.installResult with
  | .error msg =>
      (st1, e0 ++ [Effect.installCall version] ++ cb.2 ++
        set_status ("Error: " ++ msg) st1)
  | .ok _ =>
      let e1 := set_status ("Minecraft " ++ version ++
        " installed successfully!") st1
      let opts : Options := ⟨username, "", "", jvmArguments ram⟩
      let e2 := set_status ("Launching Minecraft " ++ version ++ "...") st1
      match env.getCommandResult with
      | .error msg =>
          (st1, e0 ++ [Effect.installCall version] ++ cb.2 ++ e1 ++ e2 ++
            [Effect.getCommandCall version opts] ++
            set_status ("Error: " ++ msg) st1)
      | .ok cmd =>
          match env.popenResult with
          | .error msg =>
              (st1, e0 ++ [Effect.installCall version] ++ cb.2 ++ e1 ++ e2 ++
                [Effect.getCommandCall version opts] ++
                set_status ("Error: " ++ msg) st1)
          | .ok _ =>
              let e3 := set_status "Minecraft launched successfully!" st1
              let ah := add_launch_history version username env.now st1
              (ah.1, e0 ++ [Effect.installCall version] ++ cb.2 ++ e1 ++ e2 ++
                [Effect.getCommandCall version opts] ++ [Effect.spawn cmd] ++
                e3 ++ ah.2)

/-- The `data` dict the JS side passes to `launch` (main.py lines 211-215):
`data.get` yields `none` for an absent key. -/
structure LaunchData where
  version : Option String
  username : Option String
  ram : Option Int
deriving Repr, DecidableEq

/-- Python truthiness of `data.get(...)` for a string field: `not x` is true
exactly when the key is absent (`None`) or the string is empty. -/
def pyTruthy : Option String → Bool
  | none => false
  | some s => !s.isEmpty

/-- `MinecraftLauncher.launch` (main.py lines 211-226): validate, persist
username and RAM, then start the background `install_and_launch` thread.
The thread itself is only dispatched (`Effect.startThread`); `launch`
returns before it runs. -/
def launch (data : LaunchData) (st : LauncherState) :
    LauncherState × List Effect :=
  if pyTruthy data.version && pyTruthy data.username then
    let v := data.version.getD ""
    let u := data.username.getD ""
    let r := data.ram.getD 2
    let s1 := update_username u st
    let s2 := update_ram r s1.1
    (s2.1, s1.2 ++ s2.2 ++ [Effect.startThread v u r])
  else
    (st, set_status "Please select a version and enter a username" st)

/-! ## Auxiliary definitions for the statements -/

/-- The first defined of two optional values: the lookup discipline of a
Python dict merge (`b` wins over `a` when both bind the key). -/
def firstSome (a b : Option JVal) : Option JVal :=
  match a with
  | some v => some v
  | none => b

/-- Effects that only talk to the UI (status text / progress bar): the only
effects a progress callback can produce. -/
def isUiEffect : Effect → Bool
  | .setStatus _ => true
  | .updateProgress _ _ _ => true
  | _ => false

/-- Recognizes the effect of calling `install_minecraft_version`. -/
def isInstallCall : Effect → Bool
  | .installCall _ => true
  | _ => false

/-- Recognizes a `save_config` effect. -/
def isSaveEffect : Effect → Bool
  | .save _ => true
  | _ => false

/-- Recognizes a `subprocess.Popen` effect. -/
def isSpawn : Effect → Bool
  | .spawn _ => true
  | _ => false

/-- A launcher state with the window attached and pristine counters, used to
instantiate the theorems at concrete inputs. -/
def stTest : LauncherState :=
  { window := true, max_value := 0, current_progress := 0,
    config := default_config }

/-- A launcher state right after `set_max 100` from a fresh windowed state. -/
def stMax100 : LauncherState :=
  { window := true, max_value := 100, current_progress := 0,
    config := default_config }

/-- A launcher state right after `set_max 50` from a fresh windowed state. -/
def stMax50 : LauncherState :=
  { window := true, max_value := 50, current_progress := 0,
    config := default_config }

/-- A numbered history entry, for instantiating the history theorem. -/
def hEntry (n : Nat) : HistoryEntry :=
  { version := toString n, username := "player", timestamp := "2026-01-01" }

/-- Eleven distinct history entries. -/
def es11 : List HistoryEntry := (List.range 11).map hEntry

/-- An environment in which `install_minecraft_version` raises. -/
def envFail : Env :=
  { installEvents := [], installResult := .error "boom",
    getCommandResult := .error "later", popenResult := .ok (), now := "t" }

/-! ## Dictionary-merge lemmas (for `load_config`) -/

theorem dictLookup_append (a b : RawDict) (k : String) :
    dictLookup (a ++ b) k = firstSome (dictLookup a k) (dictLookup b k) := by
  induction a with
  | nil => simp [dictLookup, firstSome]
  | cons p rest ih =>
      obtain ⟨k1, v⟩ := p
      by_cases h : k1 = k <;> simp [dictLookup, h, firstSome, ih]

theorem dictLookup_map_override (a b : RawDict) (k : String) :
    dictLookup (a.map fun p => (p.1, (dictLookup b p.1).getD p.2)) k =
      (dictLookup a k).map fun v => (dictLookup b k).getD v := by
  induction a with
  | nil => simp [dictLookup]
  | cons p rest ih =>
      obtain ⟨k1, v⟩ := p
      by_cases h : k1 = k
      · subst h; simp [dictLookup]
      · simp [dictLookup, h, ih]

theorem dictLookup_filter_missing (a b : RawDict) (k : String) :
    dictLookup (b.filter fun p => (dictLookup a p.1).isNone) k =
      if (dictLookup a k).isNone then dictLookup b k else none := by
  induction b with
  | nil => simp [dictLookup]
  | cons p rest ih =>
      obtain ⟨k1, v⟩ := p
      by_cases h : k1 = k
      · subst h
        cases ha : (dictLookup a k1).isNone <;>
          simp [List.filter_cons, dictLookup, ha, ih]
      · cases ha : (dictLookup a k1).isNone <;>
          simp [List.filter_cons, dictLookup, ha, h, ih]

theorem dictMerge_lookup (a b : RawDict) (k : String) :
    dictLookup (dictMerge a b) k =
      firstSome (dictLookup b k) (dictLookup a k) := by
  rw [dictMerge, dictLookup_append, dictLookup_map_override,
    dictLookup_filter_missing]
  cases ha : dictLookup a k <;> cases hb : dictLookup b k <;>
    simp [firstSome, ha, hb]

/-- C1: for every stored document that parses as a JSON object, `load_config`
returns the shallow merge of the defaults with the stored document: every one
of the six default fields is present (with its default value when the stored
document misses it), and every stored field keeps its stored value
(stored values override defaults key-by-key). -/
theorem load_config_merges_defaults (stored : RawDict) (k : String)
    (hk : k ∈ defaultKeys ∨ (dictLookup stored k).isSome = true) :
    (dictLookup (load_config (some (.ok stored))) k).isSome = true ∧
    dictLookup (load_config (some (.ok stored))) k =
      firstSome (dictLookup stored k) (dictLookup default_config_raw k) := by
  have hmerge : dictLookup (load_config (some (.ok stored))) k =
      firstSome (dictLookup stored k) (dictLookup default_config_raw k) := by
    simpa [load_config] using dictMerge_lookup default_config_raw stored k
  refine ⟨?_, hmerge⟩
  rw [hmerge]
  rcases hk with hk | hk
  · have hdef : (dictLookup default_config_raw k).isSome = true := by
      simp only [defaultKeys, List.mem_cons, List.not_mem_nil, or_false] at hk
      rcases hk with rfl | rfl | rfl | rfl | rfl | rfl <;> rfl
    cases hs : dictLookup stored k <;> simp [firstSome, hdef]
  · cases hs : dictLookup stored k <;> simp_all [firstSome]

/-- Witness for C1 at a stored document that misses five default fields,
overrides `theme`, and carries an unknown field `custom`. -/
theorem load_config_merges_defaults_witness :
    (dictLookup (load_config (some (.ok
      [("theme", JVal.str "blue"), ("custom", JVal.int 5)]))) "theme").isSome
      = true ∧
    dictLookup (load_config (some (.ok
      [("theme", JVal.str "blue"), ("custom", JVal.int 5)]))) "theme" =
      firstSome (dictLookup [("theme", JVal.str "blue"),
        ("custom", JVal.int 5)] "theme")
        (dictLookup default_config_raw "theme") :=
  load_config_merges_defaults _ _ (Or.inl (by decide))

/-! ## History ring-buffer lemmas -/

theorem take_append_take (l t : List HistoryEntry) :
    (l ++ t.take 10).take 10 = (l ++ t).take 10 := by
  rw [List.take_append_eq_append_take, List.take_append_eq_append_take,
    List.take_take]
  have : min (10 - l.length) 10 = 10 - l.length :=
    Nat.min_eq_left (Nat.sub_le _ _)
  rw [this]

theorem foldl_add_history (es : List HistoryEntry)
    (init : List HistoryEntry) (h : es ≠ []) :
    es.foldl (fun hl e => add_history_list e hl) init =
      (es.reverse ++ init).take 10 := by
  induction es generalizing init with
  | nil => exact absurd rfl h
  | cons e rest ih =>
      by_cases hr : rest = []
      · subst hr; simp [add_history_list]
      · rw [List.foldl_cons, ih (add_history_list e init) hr]
        show (rest.reverse ++ (e :: init).take 10).take 10 = _
        rw [take_append_take]
        simp

/-- C2: starting from any initial history sequence, 11 appends yield a
sequence of length exactly 10 holding the 10 most recently appended entries
newest-first (`es.reverse.take 10`): each append prepends and truncates to
the first 10 elements, so the 11th-oldest entry is evicted.  The last
conjunct ties the pure ring-buffer operation to
`MinecraftLauncher.add_launch_history`. -/
theorem history_eleven_appends (init es : List HistoryEntry)
    (h : es.length = 11) :
    es.foldl (fun hl e => add_history_list e hl) init = es.reverse.take 10 ∧
    (es.foldl (fun hl e => add_history_list e hl) init).length = 10 ∧
    ∀ (st : LauncherState) (ver usr ts : String),
      (add_launch_history ver usr ts st).1.config.launch_history =
        add_history_list ⟨ver, usr, ts⟩ st.config.launch_history := by
  have hne : es ≠ [] := by
    intro he; rw [he] at h; exact absurd h (by decide)
  have hfold := foldl_add_history es init hne
  have htake : (es.reverse ++ init).take 10 = es.reverse.take 10 := by
    apply List.take_append_of_le_length
    rw [List.length_reverse, h]
    decide
  refine ⟨hfold.trans htake, ?_, fun st ver usr ts => rfl⟩
  rw [hfold.trans htake, List.length_take, List.length_reverse, h]
  decide

/-- Witness for C2: 11 concrete appends onto an initially nonempty history. -/
theorem history_eleven_appends_witness :
    es11.foldl (fun hl e => add_history_list e hl) [hEntry 99] =
      es11.reverse.take 10 ∧
    (es11.foldl (fun hl e => add_history_list e hl) [hEntry 99]).length
      = 10 ∧
    ∀ (st : LauncherState) (ver usr ts : String),
      (add_launch_history ver usr ts st).1.config.launch_history =
        add_history_list ⟨ver, usr, ts⟩ st.config.launch_history :=
  history_eleven_appends [hEntry 99] es11 (by simp [es11])

/-! ## Validation and progress-bridge theorems -/

/-- C3: an empty or absent version or username makes `launch` emit the
validation status message and return at once: the state (and so
`last_username`, `ram_allocation` and the launch history) is untouched, no
config is saved, no background thread is started, and the only effect is the
single status message. -/
theorem launch_rejects_invalid (st : LauncherState) (data : LaunchData)
    (hw : st.window = true)
    (h : pyTruthy data.version = false ∨ pyTruthy data.username = false) :
    launch data st =
      (st, [Effect.setStatus "Please select a version and enter a username"])
      ∧ (launch data st).1 = st
      ∧ ∀ e ∈ (launch data st).2,
          e = Effect.setStatus "Please select a version and enter a username"
    := by
  have hc : (pyTruthy data.version && pyTruthy data.username) = false := by
    rcases h with h | h <;> simp [h]
  have hmain : launch data st =
      (st, [Effect.setStatus "Please select a version and enter a username"])
    := by
    simp [launch, hc, set_status, hw]
  refine ⟨hmain, ?_, ?_⟩
  · rw [hmain]
  · rw [hmain]; simp

/-- Witness for C3: an empty version with a valid username is rejected. -/
theorem launch_rejects_invalid_witness :
    launch ⟨some "", some "Notch", some 2⟩ stTest =
      (stTest,
        [Effect.setStatus "Please select a version and enter a username"])
      ∧ (launch ⟨some "", some "Notch", some 2⟩ stTest).1 = stTest
      ∧ ∀ e ∈ (launch ⟨some "", some "Notch", some 2⟩ stTest).2,
          e = Effect.setStatus "Please select a version and enter a username"
    :=
  launch_rejects_invalid stTest ⟨some "", some "Notch", some 2⟩ rfl
    (Or.inl rfl)

/-- `set_progress` always returns the state with the value recorded, in both
branches of the `max_value` guard. -/
theorem set_progress_fst (v : Int) (st : LauncherState) :
    (set_progress v st).1 = { st with current_progress := v } := by
  by_cases h : 0 < st.max_value <;> simp [set_progress, h]

/-- C4: with no positive maximum recorded (`max_value ≤ 0`, in particular the
initial 0 of `__init__`), `set_progress` produces no percentage notification:
the guarded division is never reached, the value is still recorded, and a
fresh launcher state indeed starts with `max_value = 0`. -/
theorem set_progress_before_max_silent (v : Int) (cfg : Config)
    (st : LauncherState) (hm : st.max_value ≤ 0) :
    (set_progress v st).2 = [] ∧
    (set_progress v st).1 = { st with current_progress := v } ∧
    (initLauncherState cfg).max_value = 0 := by
  refine ⟨?_, set_progress_fst v st, rfl⟩
  have hnot : ¬ (0 < st.max_value) := not_lt.mpr hm
  simp [set_progress, hnot]

/-- Witness for C4: `set_progress 7` on a fresh windowed state. -/
theorem set_progress_before_max_silent_witness :
    (set_progress 7 stTest).2 = [] ∧
    (set_progress 7 stTest).1 = { stTest with current_progress := 7 } ∧
    (initLauncherState default_config).max_value = 0 :=
  set_progress_before_max_silent 7 default_config stTest (by decide)

/-- C5 counterexample: after `set_max 100`, `set_progress 29` forwards a
percentage of 28 to the UI, not `⌊29 / 100 * 100⌋ = 29`: Python evaluates
`int((29 / 100) * 100)` in binary64 doubles, where `29 / 100` rounds to a
value just below `0.29` and the product rounds to `28.999999999999996`.
The claimed exact-floor formula is therefore false at `v = 29`, `m = 100`. -/
theorem set_progress_floor_counterexample :
    (set_progress 29 stMax100).2 = [Effect.updateProgress 28 29 100] ∧
    (set_progress 29 stMax100).2 ≠ [Effect.updateProgress 29 29 100] ∧
    (29 * 100) / (100 : Int) = 29 := by
  refine ⟨by decide, ?_, by decide⟩
  intro h
  have h28 : (set_progress 29 stMax100).2 = [Effect.updateProgress 28 29 100]
    := by decide
  rw [h28] at h
  exact absurd (List.cons.inj h).1 (by decide)

/-- C5 as amended: for `v ≥ 0` and a recorded maximum `m > 0`, `set_progress`
forwards exactly one UI update `(p, v, m)` where `p` is the truncation of the
binary64 evaluation of `(v / m) * 100` (`pctDouble`), which can fall below
the exact `⌊v / m * 100⌋`; on the specification's example the computation is
exact: `set_max 50` then `set_progress 25` forwards exactly 50. -/
theorem set_progress_forwards_double_pct (v m : Int) (st : LauncherState)
    (hw : st.window = true) (hm : st.max_value = m) (h0 : 0 < m)
    (hv : 0 ≤ v) :
    (set_progress v st).2 = [Effect.updateProgress (pctDouble v m) v m] ∧
    (set_progress v st).1.current_progress = v ∧
    pct100 25 50 = 50 := by
  subst hm
  refine ⟨?_, by rw [set_progress_fst], by decide⟩
  simp [set_progress, h0, hw]

/-- Witness for the amended C5 at the specification's example. -/
theorem set_progress_forwards_double_pct_witness :
    (set_progress 25 stMax50).2 =
      [Effect.updateProgress (pctDouble 25 50) 25 50] ∧
    (set_progress 25 stMax50).1.current_progress = 25 ∧
    pct100 25 50 = 50 :=
  set_progress_forwards_double_pct 25 50 stMax50 rfl rfl (by decide)
    (by decide)

/-- C6: for every `ram ≥ 1`, the launch step builds the JVM argument list as
exactly `["-Xmx{ram}G", "-Xms{max(1, ram // 2)}G"]` (Python floor division),
the `-Xms` gigabyte count is never below 1, and for `ram ≥ 2` the `max` is
inert: the count is exactly `⌊ram / 2⌋`. -/
theorem jvm_arguments_spec (ram : Int) (h : 1 ≤ ram) :
    jvmArguments ram =
      ["-Xmx" ++ toString ram ++ "G",
       "-Xms" ++ toString (max 1 (Int.fdiv ram 2)) ++ "G"] ∧
    1 ≤ max 1 (Int.fdiv ram 2) ∧
    (2 ≤ ram → max 1 (Int.fdiv ram 2) = Int.fdiv ram 2) := by
  refine ⟨rfl, le_max_left _ _, fun h2 => ?_⟩
  have hd : (1 : Int) ≤ Int.fdiv ram 2 := by
    rw [Int.fdiv_eq_ediv _ (by norm_num)]
    omega
  exact max_eq_right hd

/-- Witness for C6 at `ram = 5` (so `-Xms2G`). -/
theorem jvm_arguments_spec_witness :
    jvmArguments 5 =
      ["-Xmx" ++ toString (5 : Int) ++ "G",
       "-Xms" ++ toString (max 1 (Int.fdiv 5 2)) ++ "G"] ∧
    1 ≤ max 1 (Int.fdiv 5 2) ∧
    (2 ≤ (5 : Int) → max 1 (Int.fdiv 5 2) = Int.fdiv 5 2) :=
  jvm_arguments_spec 5 (by decide)

/-! ## Reset and launch-flow theorems -/

/-- C7: `reset_launcher_data` always returns a structured `{success, message}`
result (it is a total function into `ResetResult`; the bare `except` catches
every exception).  When it reports success, the persisted file is gone and
the in-memory configuration is reinitialized to the pure defaults; it reports
failure exactly when the file existed and `os.remove` raised, in which case
the message wraps the error and the launcher state is untouched. -/
theorem reset_launcher_data_spec (fe : Bool) (rr : Except String Unit)
    (st : LauncherState) :
    ((reset_launcher_data fe rr st).2.2.success = true →
      (reset_launcher_data fe rr st).1.config = default_config ∧
      (reset_launcher_data fe rr st).2.1 = false ∧
      (reset_launcher_data fe rr st).2.2.message =
        "Launcher data reset successfully!") ∧
    ((reset_launcher_data fe rr st).2.2.success = false →
      ∃ e, fe = true ∧ rr = Except.error e ∧
        (reset_launcher_data fe rr st).2.2.message = "Error: " ++ e ∧
        (reset_launcher_data fe rr st).1 = st) ∧
    ((reset_launcher_data fe rr st).2.2.success = true ↔
      (fe = false ∨ rr = Except.ok ())) := by
  cases fe <;> rcases rr with e | u
  · simp [reset_launcher_data]
  · simp [reset_launcher_data]
  · simp [reset_launcher_data]
  · obtain ⟨⟩ := u
    simp [reset_launcher_data]

/-- Witness for C7: the file exists and `os.remove` succeeds. -/
theorem reset_launcher_data_spec_witness :
    ((reset_launcher_data true (Except.ok ()) stTest).2.2.success = true →
      (reset_launcher_data true (Except.ok ()) stTest).1.config =
        default_config ∧
      (reset_launcher_data true (Except.ok ()) stTest).2.1 = false ∧
      (reset_launcher_data true (Except.ok ()) stTest).2.2.message =
        "Launcher data reset successfully!") ∧
    ((reset_launcher_data true (Except.ok ()) stTest).2.2.success = false →
      ∃ e, true = true ∧ (Except.ok () : Except String Unit) = Except.error e ∧
        (reset_launcher_data true (Except.ok ()) stTest).2.2.message =
          "Error: " ++ e ∧
        (reset_launcher_data true (Except.ok ()) stTest).1 = stTest) ∧
    ((reset_launcher_data true (Except.ok ()) stTest).2.2.success = true ↔
      (true = false ∨ (Except.ok () : Except String Unit) = Except.ok ())) :=
  reset_launcher_data_spec true (Except.ok ()) stTest

/-- C8: for a valid request (non-empty version and username), `launch`
mutates and persists `last_username` and `ram_allocation` synchronously:
the effect trace is exactly the two `save_config` calls followed by the
`threading.Thread(...).start()` dispatch, so both mutations are persisted
before the background task starts and hold whatever the task later does
(the trace of `launch` does not depend on any install/launch outcome). -/
theorem launch_persists_before_thread (st : LauncherState)
    (data : LaunchData) (v u : String) (hv : data.version = some v)
    (hv2 : v ≠ "") (hu : data.username = some u) (hu2 : u ≠ "") :
    (launch data st).1.config.last_username = u ∧
    (launch data st).1.config.ram_allocation = data.ram.getD 2 ∧
    (launch data st).2 =
      [Effect.save { st.config with last_username := u },
       Effect.save { st.config with last_username := u, ram_allocation := data.ram.getD 2 },
       Effect.startThread v u (data.ram.getD 2)] ∧
    (launch data st).1.config =
      { st.config with last_username := u, ram_allocation := data.ram.getD 2 } := by
  have h1 : v.isEmpty = false := by
    rw [Bool.eq_false_iff, Ne, String.isEmpty_iff]; exact hv2
  have h2 : u.isEmpty = false := by
    rw [Bool.eq_false_iff, Ne, String.isEmpty_iff]; exact hu2
  simp [launch, hv, hu, pyTruthy, h1, h2, update_username, update_ram]

/-- Witness for C8: the specification's example request. -/
theorem launch_persists_before_thread_witness :
    (launch ⟨some "1.20.1", some "Notch", some 4⟩ stTest).1.config.last_username
      = "Notch" ∧
    (launch ⟨some "1.20.1", some "Notch", some 4⟩ stTest).1.config.ram_allocation
      = (some (4 : Int)).getD 2 ∧
    (launch ⟨some "1.20.1", some "Notch", some 4⟩ stTest).2 =
      [Effect.save { stTest.config with last_username := "Notch" },
       Effect.save { stTest.config with last_username := "Notch", ram_allocation := (some (4 : Int)).getD 2 },
       Effect.startThread "1.20.1" "Notch" ((some (4 : Int)).getD 2)] ∧
    (launch ⟨some "1.20.1", some "Notch", some 4⟩ stTest).1.config =
      { stTest.config with last_username := "Notch", ram_allocation := (some (4 : Int)).getD 2 } :=
  launch_persists_before_thread stTest ⟨some "1.20.1", some "Notch", some 4⟩
    "1.20.1" "Notch" rfl (by decide) rfl (by decide)

/-! ## Failure-path theorems for the background task -/

theorem set_progress_window (v : Int) (st : LauncherState) :
    (set_progress v st).1.window = st.window := by
  rw [set_progress_fst]

theorem set_progress_config (v : Int) (st : LauncherState) :
    (set_progress v st).1.config = st.config := by
  rw [set_progress_fst]

theorem set_progress_effects_ui (v : Int) (st : LauncherState) :
    ∀ e ∈ (set_progress v st).2, isUiEffect e = true := by
  intro e he
  unfold set_progress at he
  simp only at he
  split at he
  · split at he
    · simp at he
      subst he
      rfl
    · simp at he
  · simp at he

theorem set_status_effects_ui (s : String) (st : LauncherState) :
    ∀ e ∈ set_status s st, isUiEffect e = true := by
  intro e he
  unfold set_status at he
  split at he
  · simp at he
    subst he
    rfl
  · simp at he

theorem runCallbacks_state (evs : List CbEvent) (st : LauncherState) :
    (runCallbacks evs st).1.config = st.config ∧
    (runCallbacks evs st).1.window = st.window := by
  induction evs generalizing st with
  | nil => exact ⟨rfl, rfl⟩
  | cons ev rest ih =>
      cases ev with
      | status s =>
          simpa [runCallbacks] using ih st
      | progress v =>
          have := ih (set_progress v st).1
          simpa [runCallbacks, set_progress_config, set_progress_window]
            using this
      | maxv m =>
          simpa [runCallbacks, set_max] using ih (set_max m st)

theorem runCallbacks_effects_ui (evs : List CbEvent) (st : LauncherState) :
    ∀ e ∈ (runCallbacks evs st).2, isUiEffect e = true := by
  induction evs generalizing st with
  | nil => simp [runCallbacks]
  | cons ev rest ih =>
      intro e he
      cases ev with
      | status s =>
          rw [runCallbacks] at he
          simp only [List.mem_append] at he
          rcases he with he | he
          · exact set_status_effects_ui s st e he
          · exact ih st e he
      | progress v =>
          rw [runCallbacks] at he
          simp only [List.mem_append] at he
          rcases he with he | he
          · exact set_progress_effects_ui v st e he
          · exact ih (set_progress v st).1 e he
      | maxv m =>
          rw [runCallbacks] at he
          simp only [List.nil_append] at he
          exact ih (set_max m st) e he

theorem ui_effect_counts (e : Effect) (h : isUiEffect e = true) :
    isInstallCall e = false ∧ isSaveEffect e = false ∧ isSpawn e = false := by
  cases e <;> simp_all [isUiEffect, isInstallCall, isSaveEffect, isSpawn]

theorem countP_zero_of_ui (l : List Effect)
    (h : ∀ e ∈ l, isUiEffect e = true) :
    l.countP isInstallCall = 0 ∧ l.countP isSaveEffect = 0 ∧
    l.countP isSpawn = 0 := by
  refine ⟨?_, ?_, ?_⟩ <;>
    · rw [List.countP_eq_zero]
      intro e he
      have := ui_effect_counts e (h e he)
      simp_all

/-- C9: when the external install/launch library raises — either in
`install_minecraft_version` or in `get_minecraft_command` — the session ends
in the failed state: the history is not touched, nothing is persisted, no
process is spawned, the install is attempted exactly once (no retry), and
the trace ends with the terminal status whose text carries the exception's
message verbatim behind the `"Error: "` marker. -/
theorem install_failure_goes_failed (env : Env) (version username : String)
    (ram : Int) (st : LauncherState) (msg : String) (hw : st.window = true)
    (hfail : env.installResult = Except.error msg ∨
      (env.installResult = Except.ok () ∧
        env.getCommandResult = Except.error msg)) :
    (install_and_launch env version username ram st).1.config.launch_history
      = st.config.launch_history ∧
    (∃ p, (install_and_launch env version username ram st).2 =
      p ++ [Effect.setStatus ("Error: " ++ msg)]) ∧
    (install_and_launch env version username ram st).2.countP isInstallCall
      = 1 ∧
    (install_and_launch env version username ram st).2.countP isSaveEffect
      = 0 ∧
    (install_and_launch env version username ram st).2.countP isSpawn
      = 0 := by
  have hcfg := (runCallbacks_state env.installEvents st).1
  have hwin : (runCallbacks env.installEvents st).1.window = true := by
    rw [(runCallbacks_state env.installEvents st).2, hw]
  have hcbz := countP_zero_of_ui (runCallbacks env.installEvents st).2
    (runCallbacks_effects_ui env.installEvents st)
  have he0z := countP_zero_of_ui
    (set_status ("Installing Minecraft " ++ version ++ "...") st)
    (set_status_effects_ui _ st)
  have hserr : set_status ("Error: " ++ msg)
      (runCallbacks env.installEvents st).1
      = [Effect.setStatus ("Error: " ++ msg)] := by
    simp [set_status, hwin]
  rcases hfail with hinst | ⟨hinst, hcmd⟩
  · simp only [install_and_launch, hinst]
    refine ⟨hcfg ▸ rfl, ?_, ?_⟩
    · refine ⟨set_status ("Installing Minecraft " ++ version ++ "...") st ++
        ([Effect.installCall version] ++
          (runCallbacks env.installEvents st).2), ?_⟩
      rw [hserr]
      simp [List.append_assoc]
    · rw [hserr]
      simp [List.countP_append, List.countP_cons, hcbz.1, hcbz.2.1,
        hcbz.2.2, he0z.1, he0z.2.1, he0z.2.2, isInstallCall, isSaveEffect,
        isSpawn]
  · have he1z := countP_zero_of_ui
      (set_status ("Minecraft " ++ version ++ " installed successfully!")
        (runCallbacks env.installEvents st).1)
      (set_status_effects_ui _ _)
    have he2z := countP_zero_of_ui
      (set_status ("Launching Minecraft " ++ version ++ "...")
        (runCallbacks env.installEvents st).1)
      (set_status_effects_ui _ _)
    simp only [install_and_launch, hinst, hcmd]
    refine ⟨hcfg ▸ rfl, ?_, ?_⟩
    · refine ⟨set_status ("Installing Minecraft " ++ version ++ "...") st ++
        ([Effect.installCall version] ++
          ((runCallbacks env.installEvents st).2 ++
            (set_status ("Minecraft " ++ version ++ " installed successfully!")
              (runCallbacks env.installEvents st).1 ++
              (set_status ("Launching Minecraft " ++ version ++ "...")
                (runCallbacks env.installEvents st).1 ++
                [Effect.getCommandCall version
                  ⟨username, "", "", jvmArguments ram⟩])))), ?_⟩
      rw [hserr]
      simp [List.append_assoc]
    · rw [hserr]
      simp [List.countP_append, List.countP_cons, hcbz.1, hcbz.2.1,
        hcbz.2.2, he0z.1, he0z.2.1, he0z.2.2, he1z.1, he1z.2.1, he1z.2.2,
        he2z.1, he2z.2.1, he2z.2.2, isInstallCall, isSaveEffect, isSpawn]

/-- Witness for C9: the install library raises `"boom"` on a fresh windowed
state. -/
theorem install_failure_goes_failed_witness :
    (install_and_launch envFail "1.20.1" "Notch" 2 stTest).1.config.launch_history
      = stTest.config.launch_history ∧
    (∃ p, (install_and_launch envFail "1.20.1" "Notch" 2 stTest).2 =
      p ++ [Effect.setStatus ("Error: " ++ "boom")]) ∧
    (install_and_launch envFail "1.20.1" "Notch" 2 stTest).2.countP
      isInstallCall = 1 ∧
    (install_and_launch envFail "1.20.1" "Notch" 2 stTest).2.countP
      isSaveEffect = 0 ∧
    (install_and_launch envFail "1.20.1" "Notch" 2 stTest).2.countP
      isSpawn = 0 :=
  install_failure_goes_failed envFail "1.20.1" "Notch" 2 stTest "boom" rfl
    (Or.inl rfl)

/-- C10: `set_progress` always records its argument as `current_progress`
(line 159 runs before the guard), even when the notification is dropped; and
the UI emission of a call depends only on the argument, `max_value` and the
window — not on the previously stored `current_progress` — because the
percentage numerator is the freshly assigned value.  So a value stored while
no maximum was set never corrupts a later percentage. -/
theorem set_progress_records_value (v : Int) (st st2 : LauncherState)
    (hm : st2.max_value = st.max_value) (hw : st2.window = st.window) :
    (set_progress v st).1.current_progress = v ∧
    (set_progress v st2).2 = (set_progress v st).2 := by
  refine ⟨by rw [set_progress_fst], ?_⟩
  unfold set_progress
  simp only [hm, hw]
  split
  · split <;> rfl
  · rfl

/-- Witness for C10: two states differing only in the stored
`current_progress` (99 versus 0) emit the same update for `set_progress 3`. -/
theorem set_progress_records_value_witness :
    (set_progress 3 stMax100).1.current_progress = 3 ∧
    (set_progress 3 { stMax100 with current_progress := 99 }).2 =
      (set_progress 3 stMax100).2 :=
  set_progress_records_value 3 stMax100
    { stMax100 with current_progress := 99 } rfl rfl
